import Mathlib

set_option maxHeartbeats 1000000

/-!
Verification of the `cpp_redis::subscriber` core (sources/core/subscriber.cpp).

The subscriber is shallowly embedded: the member variables of the C++ class
become a Lean record `SubState`, the `std::map`s become key-sorted association
lists (matching `std::map` iteration order), callbacks become abstract `Nat`
identifiers, and every side effect (a buffered `send`, a `commit`, a handler
invocation, a connect-state notification) is recorded in an event trace.
Transport and sentinel outcomes are supplied by oracles, since they are
external collaborators.
-/

namespace CppRedis

/-- Parsed RESP reply as delivered by the transport collaborator: a tagged
variant with kind string, error, integer, array or nil. -/
inductive Reply where
  | str : String → Reply
  | err : String → Reply
  | int : Int → Reply
  | arr : List Reply → Reply
  | nil : Reply

/-- `reply::is_string()` : the reply carries a string payload. -/
def Reply.is_string : Reply → Bool
  | .str _ => true
  | _ => false

/-- `reply::is_integer()`. -/
def Reply.is_integer : Reply → Bool
  | .int _ => true
  | _ => false

/-- `reply::is_array()`. -/
def Reply.is_array : Reply → Bool
  | .arr _ => true
  | _ => false

/-- `reply::as_string()` (defined on string kinds; default elsewhere). -/
def Reply.as_string : Reply → String
  | .str s => s
  | .err s => s
  | _ => ""

/-- `reply::as_integer()`. -/
def Reply.as_integer : Reply → Int
  | .int n => n
  | _ => 0

/-- `reply::as_array()`. -/
def Reply.as_array : Reply → List Reply
  | .arr a => a
  | _ => []

/-- `array[i]` on a parsed array whose length has already been checked. -/
def idx : List Reply → Nat → Reply
  | [], _ => .nil
  | x :: _, 0 => x
  | _ :: xs, n + 1 => idx xs n

/-- The synthetic reply `{"network failure", reply::string_type::error}`. -/
def netFailureReply : Reply := .err "network failure"

/-- `struct callback_holder` : the subscribe (message) callback and the
optional acknowledgement callback for one channel or pattern.  Callbacks are
modelled as abstract numeric identifiers; `Option` models nullability. -/
structure CallbackHolder where
  subscribe_callback : Nat
  acknowledgement_callback : Option Nat
deriving DecidableEq, Repr

/-- A `std::map<std::string, callback_holder>`, kept as a key-sorted
association list so that iteration order matches `std::map`. -/
abbrev ChannelMap := List (String × CallbackHolder)

/-- `std::map::operator[]` plus assignment: insert or overwrite, keeping the
list sorted by key. -/
def mapInsert (k : String) (v : CallbackHolder) : ChannelMap → ChannelMap
  | [] => [(k, v)]
  | (k2, v2) :: rest =>
    if k.data < k2.data then (k, v) :: (k2, v2) :: rest
    else if k = k2 then (k, v) :: rest
    else (k2, v2) :: mapInsert k v rest

/-- `std::map::find`. -/
def mapFind (k : String) : ChannelMap → Option CallbackHolder
  | [] => none
  | (k2, v2) :: rest => if k = k2 then some v2 else mapFind k rest

/-- `std::map::erase(it)` for the entry with key `k` (keys are unique). -/
def mapErase (k : String) : ChannelMap → ChannelMap
  | [] => []
  | kv :: rest =>
    if kv.1 = k then mapErase k rest else kv :: mapErase k rest

/-- The `std::map` representation invariant: keys strictly ascending. -/
def keysSorted : ChannelMap → Bool
  | [] => true
  | [_] => true
  | a :: b :: t => if a.1.data < b.1.data then keysSorted (b :: t) else false

/-- `cpp_redis::connect_state`, the public connect-notification enumeration. -/
inductive ConnectState where
  | start
  | ok
  | dropped
  | sleeping
  | failed
  | lookup_failed
  | stopped
deriving DecidableEq, Repr

/-- Observable effects of the subscriber: a buffered `m_client.send`, a
`m_client.commit`, the transport-level connect attempt inside
`m_client.connect`, a connect-state notification, and handler invocations
(ack callback with the subscription count, message callback with channel and
payload, reply callback with a full reply). -/
inductive Event where
  | send : List String → Event
  | commitCmd : Event
  | connectAttempt : String → Nat → Event
  | connectEvt : Nat → String → Nat → ConnectState → Event
  | ackCb : Nat → Int → Event
  | msgCb : Nat → String → String → Event
  | replyCb : Nat → Reply → Event

/-- Member variables of `cpp_redis::subscriber`, plus the transport's
connection status (`m_client.is_connected()`). -/
structure SubState where
  m_redis_server : String
  m_redis_port : Nat
  m_master_name : String
  m_password : String
  m_client_name : String
  m_connect_timeout_ms : Nat
  m_max_reconnects : Int
  m_current_reconnect_attempts : Int
  m_reconnect_interval_ms : Nat
  m_use_encryption : Bool
  m_reconnecting : Bool
  m_cancel : Bool
  m_subscribed_channels : ChannelMap
  m_psubscribed_channels : ChannelMap
  m_connect_callback : Option Nat
  m_ping_callbacks : List (Option Nat)
  m_auth_reply_callback : Option Nat
  m_client_setname_reply_callback : Option Nat
  connected : Bool
deriving DecidableEq, Repr

/-- A freshly constructed subscriber (default member initializers of the
header plus the default constructor body). -/
def subscriberInit : SubState where
  m_redis_server := ""
  m_redis_port := 0
  m_master_name := ""
  m_password := ""
  m_client_name := ""
  m_connect_timeout_ms := 0
  m_max_reconnects := 0
  m_current_reconnect_attempts := 0
  m_reconnect_interval_ms := 0
  m_use_encryption := false
  m_reconnecting := false
  m_cancel := false
  m_subscribed_channels := []
  m_psubscribed_channels := []
  m_connect_callback := none
  m_ping_callbacks := []
  m_auth_reply_callback := none
  m_client_setname_reply_callback := none
  connected := false

/-- Invoke the connect callback, if set, with the current server and port. -/
def notify (s : SubState) (cs : ConnectState) : List Event :=
  match s.m_connect_callback with
  | some cb => [.connectEvt cb s.m_redis_server s.m_redis_port cs]
  | none => []

/-- `subscriber::cancel_reconnect()`. -/
def cancel_reconnect (s : SubState) : SubState :=
  {s with m_cancel := true}

/-- `subscriber::should_reconnect()`. -/
def should_reconnect (s : SubState) : Bool :=
  !s.connected && !s.m_cancel &&
    (s.m_max_reconnects == -1 ||
      s.m_current_reconnect_attempts < s.m_max_reconnects)

/-- `subscriber::auth(password, reply_callback)`: caches the password, arms
the AUTH one-shot, and buffers `AUTH password`. -/
def auth (password : String) (reply_callback : Option Nat) (s : SubState) :
    SubState × List Event :=
  ({s with m_password := password, m_auth_reply_callback := reply_callback},
   [.send ["AUTH", password]])

/-- `subscriber::client_setname(name, reply_callback)`: caches the name, arms
the SETNAME one-shot, and buffers `CLIENT SETNAME name`. -/
def client_setname (name : String) (reply_callback : Option Nat)
    (s : SubState) : SubState × List Event :=
  ({s with m_client_name := name,
           m_client_setname_reply_callback := reply_callback},
   [.send ["CLIENT", "SETNAME", name]])

/-- `subscriber::unprotected_subscribe`: register the channel (overwriting)
and buffer `SUBSCRIBE channel`. -/
def unprotected_subscribe (channel : String) (cb : Nat) (ack : Option Nat)
    (s : SubState) : SubState × List Event :=
  ({s with m_subscribed_channels :=
      mapInsert channel ⟨cb, ack⟩ s.m_subscribed_channels},
   [.send ["SUBSCRIBE", channel]])

/-- `subscriber::unprotected_psubscribe`. -/
def unprotected_psubscribe (pattern : String) (cb : Nat) (ack : Option Nat)
    (s : SubState) : SubState × List Event :=
  ({s with m_psubscribed_channels :=
      mapInsert pattern ⟨cb, ack⟩ s.m_psubscribed_channels},
   [.send ["PSUBSCRIBE", pattern]])

/-- `subscriber::subscribe` (the lock is the mutex; the body delegates). -/
def subscribe (channel : String) (cb : Nat) (ack : Option Nat)
    (s : SubState) : SubState × List Event :=
  unprotected_subscribe channel cb ack s

/-- `subscriber::psubscribe`. -/
def psubscribe (pattern : String) (cb : Nat) (ack : Option Nat)
    (s : SubState) : SubState × List Event :=
  unprotected_psubscribe pattern cb ack s

/-- `subscriber::unsubscribe(channel)`: under the channel lock, if absent do
nothing; otherwise buffer `UNSUBSCRIBE channel` and erase the entry. -/
def unsubscribe (channel : String) (s : SubState) : SubState × List Event :=
  match mapFind channel s.m_subscribed_channels with
  | none => (s, [])
  | some _ =>
    ({s with m_subscribed_channels :=
        mapErase channel s.m_subscribed_channels},
     [.send ["UNSUBSCRIBE", channel]])

/-- `subscriber::punsubscribe(pattern)`. -/
def punsubscribe (pattern : String) (s : SubState) : SubState × List Event :=
  match mapFind pattern s.m_psubscribed_channels with
  | none => (s, [])
  | some _ =>
    ({s with m_psubscribed_channels :=
        mapErase pattern s.m_psubscribed_channels},
     [.send ["PUNSUBSCRIBE", pattern]])

/-- `subscriber::ping(message, reply_callback)`: under the ping lock, buffer
`PING` (with the argument when non-empty) and push the callback onto the
FIFO.  The send and the push are a single atomic step. -/
def ping (message : String) (reply_callback : Option Nat) (s : SubState) :
    SubState × List Event :=
  ({s with m_ping_callbacks := s.m_ping_callbacks ++ [reply_callback]},
   [.send (if message = "" then ["PING"] else ["PING", message])])

/-- `subscriber::commit()`: flush buffered commands to the transport. -/
def commit (s : SubState) : SubState × List Event :=
  (s, [.commitCmd])

/-- `subscriber::call_acknowledgement_callback`: look the channel up in the
given table; if present and an ack callback exists, invoke it with the
server's subscription count. -/
def call_acknowledgement_callback (channel : String) (channels : ChannelMap)
    (nb_chans : Int) : List Event :=
  match mapFind channel channels with
  | none => []
  | some holder =>
    match holder.acknowledgement_callback with
    | none => []
    | some cb => [.ackCb cb nb_chans]

/-- `subscriber::handle_acknowledgement_reply`. -/
def handle_acknowledgement_reply (s : SubState) (reply : List Reply) :
    SubState × List Event :=
  if reply.length ≠ 3 then (s, [])
  else
    let title := idx reply 0
    let channel := idx reply 1
    let nb_chans := idx reply 2
    if !title.is_string || !channel.is_string || !nb_chans.is_integer then
      (s, [])
    else if title.as_string = "subscribe" then
      (s, call_acknowledgement_callback channel.as_string
            s.m_subscribed_channels nb_chans.as_integer)
    else if title.as_string = "psubscribe" then
      (s, call_acknowledgement_callback channel.as_string
            s.m_psubscribed_channels nb_chans.as_integer)
    else (s, [])

/-- `subscriber::handle_subscribe_reply`. -/
def handle_subscribe_reply (s : SubState) (reply : List Reply) :
    SubState × List Event :=
  if reply.length ≠ 3 then (s, [])
  else
    let title := idx reply 0
    let channel := idx reply 1
    let message := idx reply 2
    if !title.is_string || !channel.is_string || !message.is_string then
      (s, [])
    else if title.as_string ≠ "message" then (s, [])
    else
      match mapFind channel.as_string s.m_subscribed_channels with
      | none => (s, [])
      | some holder =>
        (s, [.msgCb holder.subscribe_callback channel.as_string
               message.as_string])

/-- `subscriber::handle_psubscribe_reply`. -/
def handle_psubscribe_reply (s : SubState) (reply : List Reply) :
    SubState × List Event :=
  if reply.length ≠ 4 then (s, [])
  else
    let title := idx reply 0
    let pchannel := idx reply 1
    let channel := idx reply 2
    let message := idx reply 3
    if !title.is_string || !pchannel.is_string || !channel.is_string
        || !message.is_string then (s, [])
    else if title.as_string ≠ "pmessage" then (s, [])
    else
      match mapFind pchannel.as_string s.m_psubscribed_channels with
      | none => (s, [])
      | some holder =>
        (s, [.msgCb holder.subscribe_callback channel.as_string
               message.as_string])

/-- `subscriber::handle_ping_reply`: on a well-formed 2-element string pong,
pop the FIFO head under the ping lock and invoke it (when non-null) with the
full reply. -/
def handle_ping_reply (s : SubState) (reply : Reply) :
    SubState × List Event :=
  if !reply.is_array || reply.as_array.length ≠ 2 then (s, [])
  else
    let pong := idx reply.as_array 0
    let pongmsg := idx reply.as_array 1
    if !pong.is_string || !pongmsg.is_string then (s, [])
    else
      match s.m_ping_callbacks with
      | [] => (s, [])
      | c :: rest =>
        ({s with m_ping_callbacks := rest},
         match c with
         | some cb => [.replyCb cb reply]
         | none => [])

/-- The synthetic failure deliveries of `clear_ping_callbacks`: one
invocation per non-null queued callback, each with the
`"network failure"` error reply. -/
def pingFailEvents (q : List (Option Nat)) : List Event :=
  q.filterMap (fun c =>
    match c with
    | some cb => some (.replyCb cb netFailureReply)
    | none => none)

/-- `subscriber::clear_ping_callbacks`: move the queue out (leaving it
empty) and deliver a `"network failure"` error reply to every pending
callback on the detached worker. -/
def clear_ping_callbacks (s : SubState) : SubState × List Event :=
  if s.m_ping_callbacks.isEmpty then (s, [])
  else
    ({s with m_ping_callbacks := []}, pingFailEvents s.m_ping_callbacks)

/-- `subscriber::disconnect`: close the transport, then clear the pending
ping callbacks. -/
def disconnect (s : SubState) : SubState × List Event :=
  clear_ping_callbacks {s with connected := false}

/-- `subscriber::connection_receive_handler`: the reply demultiplexer.
Non-array replies feed the AUTH one-shot first, else the SETNAME one-shot;
arrays are dispatched on (length, element kinds) as in the source. -/
def connection_receive_handler (s : SubState) (reply : Reply) :
    SubState × List Event :=
  if !reply.is_array then
    match s.m_auth_reply_callback with
    | some cb =>
      ({s with m_auth_reply_callback := none}, [.replyCb cb reply])
    | none =>
      match s.m_client_setname_reply_callback with
      | some cb =>
        ({s with m_client_setname_reply_callback := none},
         [.replyCb cb reply])
      | none => (s, [])
  else
    let array := reply.as_array
    if array.length == 3 && (idx array 2).is_integer then
      handle_acknowledgement_reply s array
    else if array.length == 3 && (idx array 2).is_string then
      handle_subscribe_reply s array
    else if array.length == 4 then
      handle_psubscribe_reply s array
    else if array.length == 2 && (idx array 0).is_string
        && (idx array 0).as_string == "pong" then
      handle_ping_reply s reply
    else (s, [])

/-- Distinguished identifier for the logging lambda that `re_auth` installs
as the AUTH one-shot. -/
def reAuthLogger : Nat := 1000001

/-- Distinguished identifier for the logging lambda of `re_client_setname`. -/
def reSetnameLogger : Nat := 1000002

/-- `subscriber::connect(host, port, ...)` (host/port form).  Caches the
parameters in the member variables (the source does NOT assign
`m_connect_timeout_ms`), notifies `start`, runs the transport handshake
(outcome given by the oracle `transportOk`; a failed handshake throws, so
the trailing `ok` notification is skipped and the returned flag is false),
then notifies `ok`. -/
def connect (host : String) (port : Nat) (connect_callback : Option Nat)
    (timeout_ms : Nat) (max_reconnects : Int) (reconnect_interval_ms : Nat)
    (use_encryption : Bool) (transportOk : Bool) (s : SubState) :
    SubState × List Event × Bool :=
  let _ := timeout_ms
  let s1 := {s with
    m_redis_server := host
    m_redis_port := port
    m_connect_callback := connect_callback
    m_max_reconnects := max_reconnects
    m_reconnect_interval_ms := reconnect_interval_ms
    m_use_encryption := use_encryption}
  let e1 := notify s1 .start ++ [.connectAttempt host port]
  if transportOk then
    let s2 := {s1 with connected := true}
    (s2, e1 ++ notify s2 .ok, true)
  else
    ({s1 with connected := false}, e1, false)

/-- `subscriber::re_auth`: nothing when no password is cached; otherwise
re-send `AUTH` with the cached password, arming the logging one-shot. -/
def re_auth (s : SubState) : SubState × List Event :=
  if s.m_password = "" then (s, [])
  else auth s.m_password (some reAuthLogger) s

/-- `subscriber::re_client_setname`: nothing when no client name is cached;
otherwise re-send `CLIENT SETNAME` with the cached name. -/
def re_client_setname (s : SubState) : SubState × List Event :=
  if s.m_client_name = "" then (s, [])
  else client_setname s.m_client_name (some reSetnameLogger) s

/-- One `unprotected_subscribe` step of the `re_subscribe` drain loop,
threading state and accumulated events. -/
def reSubStep (acc : SubState × List Event) (chan : String × CallbackHolder) :
    SubState × List Event :=
  let r := unprotected_subscribe chan.1 chan.2.subscribe_callback
    chan.2.acknowledgement_callback acc.1
  (r.1, acc.2 ++ r.2)

/-- One `unprotected_psubscribe` step of the `re_subscribe` drain loop. -/
def rePsubStep (acc : SubState × List Event)
    (chan : String × CallbackHolder) : SubState × List Event :=
  let r := unprotected_psubscribe chan.1 chan.2.subscribe_callback
    chan.2.acknowledgement_callback acc.1
  (r.1, acc.2 ++ r.2)

/-- `subscriber::re_subscribe`: move each table out, then re-insert every
entry through the lock-free variant, buffering the matching command. -/
def re_subscribe (s : SubState) : SubState × List Event :=
  let sub_chans := s.m_subscribed_channels
  let r1 := sub_chans.foldl reSubStep
    ({s with m_subscribed_channels := []}, [])
  let psub_chans := r1.1.m_psubscribed_channels
  psub_chans.foldl rePsubStep
    ({r1.1 with m_psubscribed_channels := []}, r1.2)

/-- The tail of `subscriber::reconnect()` after the sentinel lookup: the
guarded `connect` call (exception swallowed), the `failed` notification when
still disconnected, else the `ok` notification and the replay
`re_auth`, `re_client_setname`, `re_subscribe`, `commit`. -/
def reconnect_connect_phase (transportOk : Bool) (s : SubState) :
    SubState × List Event :=
  let c := connect s.m_redis_server s.m_redis_port s.m_connect_callback
    s.m_connect_timeout_ms s.m_max_reconnects s.m_reconnect_interval_ms
    s.m_use_encryption transportOk s
  let s1 := c.1
  let e1 := c.2.1
  if !s1.connected then (s1, e1 ++ notify s1 .failed)
  else
    let e2 := notify s1 .ok
    let r3 := re_auth s1
    let r4 := re_client_setname r3.1
    let r5 := re_subscribe r4.1
    let r6 := commit r5.1
    (r6.1, e1 ++ e2 ++ r3.2 ++ r4.2 ++ r5.2 ++ r6.2)

/-- `subscriber::reconnect()`: bump the attempt counter; refresh host/port
via sentinel when a master name is set (notifying `lookup_failed` and
returning on failure); then run the connect-and-replay phase. -/
def reconnect (lookup : String → Option (String × Nat)) (transportOk : Bool)
    (s : SubState) : SubState × List Event :=
  let s := {s with
    m_current_reconnect_attempts := s.m_current_reconnect_attempts + 1}
  if s.m_master_name = "" then reconnect_connect_phase transportOk s
  else
    match lookup s.m_master_name with
    | none => (s, notify s .lookup_failed)
    | some hp =>
      reconnect_connect_phase transportOk
        {s with m_redis_server := hp.1, m_redis_port := hp.2}

/-- `subscriber::sleep_before_next_reconnect_attempt`: when the interval is
non-zero, notify `sleeping` (and sleep). -/
def sleep_before_next_reconnect_attempt (s : SubState) : List Event :=
  if s.m_reconnect_interval_ms = 0 then [] else notify s .sleeping

/-- Environment oracles for the reconnect loop: the sentinel lookup result,
the transport connect outcome, and whether `cancel_reconnect` has been
called by the time the loop reaches iteration `i`'s `should_reconnect`
check. -/
structure ReconnectEnv where
  lookup : Nat → String → Option (String × Nat)
  transportOk : Nat → Bool
  cancelSignal : Nat → Bool

/-- The `while (should_reconnect())` loop of the disconnection handler,
iteration counter `i`, fuel-bounded.  Before each check the environment may
set the cancel flag (modelling a concurrent `cancel_reconnect`, whose effect
the source reads at the loop-head check). -/
def reconnect_loop (env : ReconnectEnv) : Nat → Nat → SubState →
    SubState × List Event
  | _, 0, s => (s, [])
  | i, fuel + 1, s =>
    let s := if env.cancelSignal i then cancel_reconnect s else s
    if should_reconnect s then
      let e0 := sleep_before_next_reconnect_attempt s
      let r1 := reconnect (env.lookup i) (env.transportOk i) s
      let r2 := reconnect_loop env (i + 1) fuel r1.1
      (r2.1, e0 ++ r1.2 ++ r2.2)
    else (s, [])

/-- `subscriber::clear_subscriptions`. -/
def clear_subscriptions (s : SubState) : SubState :=
  {s with m_subscribed_channels := [], m_psubscribed_channels := []}

/-- `subscriber::connection_disconnection_handler`: idempotent entry; set
`m_reconnecting`, reset the attempt counter, notify `dropped`, clear the
pending ping callbacks, run the reconnect loop, and on abandonment clear the
registry and notify `stopped`. -/
def connection_disconnection_handler (env : ReconnectEnv) (fuel : Nat)
    (s : SubState) : SubState × List Event :=
  if s.m_reconnecting then (s, [])
  else
    let s := {s with m_reconnecting := true,
                     m_current_reconnect_attempts := 0}
    let e0 := notify s .dropped
    let r1 := clear_ping_callbacks s
    let r2 := reconnect_loop env 0 fuel r1.1
    let s2 := r2.1
    let r3 :=
      if !s2.connected then
        (clear_subscriptions s2, notify s2 .stopped)
      else (s2, [])
    ({r3.1 with m_reconnecting := false}, e0 ++ r1.2 ++ r2.2 ++ r3.2)

/-- An item on the wire: a buffered command or a `commit` flush point. -/
inductive WireItem where
  | cmd : List String → WireItem
  | flush : WireItem
deriving DecidableEq, Repr

/-- Project an event trace to its wire activity (sends and commits). -/
def wireOf (es : List Event) : List WireItem :=
  es.filterMap (fun e =>
    match e with
    | .send ts => some (.cmd ts)
    | .commitCmd => some .flush
    | _ => none)

/-- Whether an event invokes a reply callback (a ping, AUTH or SETNAME
handler invocation). -/
def isReplyCb : Event → Bool
  | .replyCb _ _ => true
  | _ => false

/-- The events of a trace that invoke a reply callback. -/
def replyCbEvents (es : List Event) : List Event :=
  es.filter isReplyCb

/-- Element `i` of the array is the plain string `t`. -/
def idxIsStr (a : List Reply) (i : Nat) (t : String) : Bool :=
  (idx a i).is_string && (idx a i).as_string == t

/-- The array shapes named by dispatch rules 2-5 of the specification:
ack (length 3, third element integer), message (length 3, third element
string, first element the string `"message"`), pmessage (length 4, first
element the string `"pmessage"`), pong (length 2, first element the string
`"pong"`).  Rule 6 covers every array outside these shapes. -/
def matchesDispatchShape (a : List Reply) : Bool :=
  (a.length == 3 && (idx a 2).is_integer) ||
  (a.length == 3 && (idx a 2).is_string && idxIsStr a 0 "message") ||
  (a.length == 4 && idxIsStr a 0 "pmessage") ||
  (a.length == 2 && idxIsStr a 0 "pong")

/-- The server's pong for `PING m` on a subscriber connection. -/
def pongReply (m : String) : Reply := .arr [.str "pong", .str m]

/-- Driver: issue `ping(m_i, cb_i)` for each listed pair in order. -/
def runPings : List (String × Nat) → SubState → SubState × List Event
  | [], s => (s, [])
  | p :: ps, s =>
    let r := ping p.1 (some p.2) s
    let r2 := runPings ps r.1
    (r2.1, r.2 ++ r2.2)

/-- Driver: deliver the pongs for the listed messages in order through the
receive handler. -/
def deliverPongs : List String → SubState → SubState × List Event
  | [], s => (s, [])
  | m :: ms, s =>
    let r := connection_receive_handler s (pongReply m)
    let r2 := deliverPongs ms r.1
    (r2.1, r.2 ++ r2.2)

/-- The wire tokens replayed for one subscription table. -/
def replayCmds (word : String) (m : ChannelMap) : List (List String) :=
  m.map (fun c => [word, c.1])

/-- A sample populated subscriber used to instantiate the theorems on
concrete inputs: two channels, one pattern, a cached password and client
name, an armed AUTH one-shot and one pending ping. -/
def sampleState : SubState :=
  {subscriberInit with
    m_redis_server := "redis.example"
    m_redis_port := 6379
    m_password := "pw"
    m_client_name := "svc"
    m_subscribed_channels := [("news", ⟨1, some 2⟩), ("weather", ⟨3, none⟩)]
    m_psubscribed_channels := [("news.*", ⟨4, some 5⟩)]
    m_connect_callback := some 9
    m_ping_callbacks := [some 6]
    m_auth_reply_callback := some 7
    m_client_setname_reply_callback := some 8}

theorem mapFind_mapErase_self (k : String) (m : ChannelMap) :
    mapFind k (mapErase k m) = none := by
  induction m with
  | nil => rfl
  | cons a t ih =>
    by_cases h : a.1 = k
    · simpa [mapErase, h] using ih
    · have h2 : ¬ k = a.1 := fun hk => h hk.symm
      simpa [mapErase, mapFind, h, h2] using ih

theorem mapFind_mapErase_ne (k k2 : String) (m : ChannelMap)
    (h : k2 ≠ k) : mapFind k2 (mapErase k m) = mapFind k2 m := by
  induction m with
  | nil => rfl
  | cons a t ih =>
    by_cases ha : a.1 = k
    · have h2 : ¬ k2 = a.1 := by rw [ha]; exact h
      simpa [mapErase, mapFind, ha, h2, h] using ih
    · by_cases hb : k2 = a.1
      · simp [mapErase, mapFind, ha, hb]
      · simpa [mapErase, mapFind, ha, hb] using ih

/-- C9: `unsubscribe` on an absent channel sends no command and leaves the
state unchanged, likewise `punsubscribe` on an absent pattern; on a present
entry exactly the matching `UNSUBSCRIBE`/`PUNSUBSCRIBE` command is buffered,
the entry is removed, and every other entry (and all other state) is kept. -/
theorem c9_unsubscribe_frame (s : SubState) (channel pattern : String) :
    (mapFind channel s.m_subscribed_channels = none →
      unsubscribe channel s = (s, [])) ∧
    (mapFind pattern s.m_psubscribed_channels = none →
      punsubscribe pattern s = (s, [])) ∧
    ((mapFind channel s.m_subscribed_channels).isSome = true →
      unsubscribe channel s =
        ({s with m_subscribed_channels :=
            mapErase channel s.m_subscribed_channels},
         [.send ["UNSUBSCRIBE", channel]]) ∧
      mapFind channel (unsubscribe channel s).1.m_subscribed_channels =
        none ∧
      ∀ k, k ≠ channel →
        mapFind k (unsubscribe channel s).1.m_subscribed_channels =
          mapFind k s.m_subscribed_channels) ∧
    ((mapFind pattern s.m_psubscribed_channels).isSome = true →
      punsubscribe pattern s =
        ({s with m_psubscribed_channels :=
            mapErase pattern s.m_psubscribed_channels},
         [.send ["PUNSUBSCRIBE", pattern]]) ∧
      mapFind pattern (punsubscribe pattern s).1.m_psubscribed_channels =
        none ∧
      ∀ k, k ≠ pattern →
        mapFind k (punsubscribe pattern s).1.m_psubscribed_channels =
          mapFind k s.m_psubscribed_channels) := by
  refine ⟨?_, ?_, ?_, ?_⟩
  · intro h
    simp [unsubscribe, h]
  · intro h
    simp [punsubscribe, h]
  · intro h
    obtain ⟨v, hv⟩ := Option.isSome_iff_exists.mp h
    refine ⟨by simp [unsubscribe, hv], ?_, ?_⟩
    · simp [unsubscribe, hv, mapFind_mapErase_self]
    · intro k hk
      simp [unsubscribe, hv, mapFind_mapErase_ne channel k _ hk]
  · intro h
    obtain ⟨v, hv⟩ := Option.isSome_iff_exists.mp h
    refine ⟨by simp [punsubscribe, hv], ?_, ?_⟩
    · simp [punsubscribe, hv, mapFind_mapErase_self]
    · intro k hk
      simp [punsubscribe, hv, mapFind_mapErase_ne pattern k _ hk]

/-- Witness for C9 on `sampleState`: "missing" is absent (no command, no
change); "news" is present (exactly one `UNSUBSCRIBE news` buffered). -/
theorem c9_unsubscribe_frame_witness :
    unsubscribe "missing" sampleState = (sampleState, []) ∧
    unsubscribe "news" sampleState =
      ({sampleState with
          m_subscribed_channels :=
            mapErase "news" sampleState.m_subscribed_channels},
       [.send ["UNSUBSCRIBE", "news"]]) ∧
    punsubscribe "news.*" sampleState =
      ({sampleState with
          m_psubscribed_channels :=
            mapErase "news.*" sampleState.m_psubscribed_channels},
       [.send ["PUNSUBSCRIBE", "news.*"]]) :=
  ⟨(c9_unsubscribe_frame sampleState "missing" "p").1 rfl,
   ((c9_unsubscribe_frame sampleState "news" "p").2.2.1 rfl).1,
   ((c9_unsubscribe_frame sampleState "c" "news.*").2.2.2 rfl).1⟩

/-- C10: a 3-element array acknowledgement whose title is a string other
than `"subscribe"`/`"psubscribe"` (e.g. `"unsubscribe"`, `"punsubscribe"`)
invokes no callback and leaves the whole state unchanged. -/
theorem c10_unknown_ack_dropped (s : SubState) (t : String) (e : Reply)
    (n : Int) (h1 : t ≠ "subscribe") (h2 : t ≠ "psubscribe") :
    connection_receive_handler s (.arr [.str t, e, .int n]) = (s, []) := by
  cases e <;>
    simp [connection_receive_handler, handle_acknowledgement_reply, idx,
      Reply.is_array, Reply.is_string, Reply.is_integer, Reply.as_string,
      Reply.as_array, h1, h2]

/-- Witness for C10: an `unsubscribe` acknowledgement is dropped. -/
theorem c10_unknown_ack_dropped_witness :
    connection_receive_handler sampleState
      (.arr [.str "unsubscribe", .str "news", .int 1]) =
      (sampleState, []) :=
  c10_unknown_ack_dropped sampleState "unsubscribe" (.str "news") 1
    (by decide) (by decide)

/-- C3: a non-array reply is consumed by the armed AUTH one-shot first
(which is disarmed); else by the armed SETNAME one-shot (disarmed); else
discarded.  With both armed, two successive non-array replies consume AUTH
first, then SETNAME, each exactly once. -/
theorem c3_oob_one_shot (s : SubState) (r r2 : Reply)
    (hr : r.is_array = false) :
    (∀ a, s.m_auth_reply_callback = some a →
      connection_receive_handler s r =
        ({s with m_auth_reply_callback := none}, [.replyCb a r])) ∧
    (s.m_auth_reply_callback = none →
      ∀ b, s.m_client_setname_reply_callback = some b →
      connection_receive_handler s r =
        ({s with m_client_setname_reply_callback := none},
         [.replyCb b r])) ∧
    (s.m_auth_reply_callback = none →
      s.m_client_setname_reply_callback = none →
      connection_receive_handler s r = (s, [])) ∧
    (∀ a b, s.m_auth_reply_callback = some a →
      s.m_client_setname_reply_callback = some b →
      r2.is_array = false →
      (connection_receive_handler s r).2 ++
        (connection_receive_handler
          (connection_receive_handler s r).1 r2).2 =
        [.replyCb a r, .replyCb b r2] ∧
      (connection_receive_handler
        (connection_receive_handler s r).1 r2).1.m_auth_reply_callback =
        none ∧
      (connection_receive_handler
          (connection_receive_handler s r).1
          r2).1.m_client_setname_reply_callback = none) := by
  refine ⟨?_, ?_, ?_, ?_⟩
  · intro a ha
    simp [connection_receive_handler, hr, ha]
  · intro ha b hb
    simp [connection_receive_handler, hr, ha, hb]
  · intro ha hb
    simp [connection_receive_handler, hr, ha, hb]
  · intro a b ha hb hr2
    simp [connection_receive_handler, hr, hr2, ha, hb]

/-- Witness for C3 on `sampleState` (AUTH one-shot 7, SETNAME one-shot 8):
the first non-array reply fires 7, the second fires 8. -/
theorem c3_oob_one_shot_witness :
    connection_receive_handler sampleState (.str "OK") =
      ({sampleState with m_auth_reply_callback := none},
       [.replyCb 7 (.str "OK")]) ∧
    (connection_receive_handler sampleState (.str "OK")).2 ++
      (connection_receive_handler
        (connection_receive_handler sampleState (.str "OK")).1
        (.str "KO")).2 =
      [.replyCb 7 (.str "OK"), .replyCb 8 (.str "KO")] :=
  ⟨(c3_oob_one_shot sampleState (.str "OK") (.str "KO") rfl).1 7 rfl,
   ((c3_oob_one_shot sampleState (.str "OK") (.str "KO") rfl).2.2.2
      7 8 rfl rfl rfl).1⟩

/-- C5: once the cancel flag is set (either in the state, as
`cancel_reconnect` leaves it, or arriving at a loop-head check), the
reconnect loop performs no further transport connect attempt: it emits no
events at all, exiting before the next connect. -/
theorem c5_cancel_stops_loop (env : ReconnectEnv) (i fuel : Nat)
    (s : SubState)
    (h : env.cancelSignal i = true ∨ s.m_cancel = true) :
    (reconnect_loop env i fuel s).2 = [] ∧
    ∀ host port,
      Event.connectAttempt host port ∉ (reconnect_loop env i fuel s).2 := by
  have he : (reconnect_loop env i fuel s).2 = [] := by
    cases fuel with
    | zero => rfl
    | succ n =>
      rcases h with h | h
      · simp [reconnect_loop, h, cancel_reconnect, should_reconnect]
      · by_cases hc : env.cancelSignal i = true <;>
          simp [reconnect_loop, hc, h, cancel_reconnect, should_reconnect]
  exact ⟨he, by simp [he]⟩

/-- Witness for C5: with the cancel signal raised, a 5-iteration loop on
`sampleState` emits nothing. -/
theorem c5_cancel_stops_loop_witness :
    (reconnect_loop ⟨fun _ _ => none, fun _ => true, fun _ => true⟩
      0 5 sampleState).2 = [] :=
  (c5_cancel_stops_loop ⟨fun _ _ => none, fun _ => true, fun _ => true⟩
    0 5 sampleState (Or.inl rfl)).1

/-- Counterexample to C6 as stated: `["pong", 0]` is a 2-element array
whose first element is the string `"pong"`, and the ping FIFO is non-empty,
yet the dispatcher does not pop the FIFO head (the handler requires the
second element to be a string) and invokes nothing. -/
theorem c6_pong_nonstring_counterexample :
    sampleState.m_ping_callbacks = [some 6] ∧
    (connection_receive_handler sampleState
      (.arr [.str "pong", .int 0])).1.m_ping_callbacks = [some 6] ∧
    (connection_receive_handler sampleState
        (.arr [.str "pong", .int 0])).1.m_ping_callbacks ≠
      List.tail sampleState.m_ping_callbacks ∧
    (connection_receive_handler sampleState
      (.arr [.str "pong", .int 0])).2 = [] :=
  ⟨rfl, rfl, by decide, rfl⟩

/-- C6 amended: for a 2-element array whose first element is the string
`"pong"` and whose second element is also a string, the dispatcher pops the
ping-FIFO head, invoking it with the full reply when it carries a handler;
an empty FIFO drops the pong with the FIFO unchanged; and a 2-element pong
whose second element is not a string is dropped with the FIFO unchanged. -/
theorem c6_pong_pop_amended (s : SubState) (m : String) (x : Reply) :
    (∀ c rest, s.m_ping_callbacks = c :: rest →
      connection_receive_handler s (.arr [.str "pong", .str m]) =
        ({s with m_ping_callbacks := rest},
         match c with
         | some cb => [.replyCb cb (.arr [.str "pong", .str m])]
         | none => [])) ∧
    (s.m_ping_callbacks = [] →
      connection_receive_handler s (.arr [.str "pong", .str m]) =
        (s, [])) ∧
    (x.is_string = false →
      connection_receive_handler s (.arr [.str "pong", x]) = (s, [])) := by
  refine ⟨?_, ?_, ?_⟩
  · intro c rest hc
    cases c <;>
      simp [connection_receive_handler, handle_ping_reply, idx,
        Reply.is_array, Reply.is_string, Reply.as_string, Reply.as_array,
        hc]
  · intro hc
    simp [connection_receive_handler, handle_ping_reply, idx,
      Reply.is_array, Reply.is_string, Reply.as_string, Reply.as_array, hc]
  · intro hx
    cases x <;>
      simp_all [connection_receive_handler, handle_ping_reply, idx,
        Reply.is_array, Reply.is_string, Reply.as_string, Reply.as_array]

/-- Witness for the amended C6 on `sampleState` (FIFO `[some 6]`): the pong
`["pong", "a"]` pops the head and invokes handler 6 with the full reply. -/
theorem c6_pong_pop_amended_witness :
    connection_receive_handler sampleState (.arr [.str "pong", .str "a"]) =
      ({sampleState with m_ping_callbacks := []},
       [.replyCb 6 (.arr [.str "pong", .str "a"])]) :=
  (c6_pong_pop_amended sampleState "a" (.int 0)).1 (some 6) [] rfl

theorem handle_subscribe_reply_drop (s : SubState) (x y z : Reply)
    (h : idxIsStr [x, y, z] 0 "message" = false) :
    handle_subscribe_reply s [x, y, z] = (s, []) := by
  simp only [idxIsStr, idx, Bool.and_eq_false_iff] at h
  simp only [handle_subscribe_reply, idx]
  split
  · rfl
  · split
    · rfl
    · split
      · rfl
      · rename_i hstrs hmsg
        exfalso
        have hx : x.is_string = true := by
          by_contra hx
          rw [Bool.not_eq_true] at hx
          exact hstrs (by simp [hx])
        have hm : x.as_string = "message" := not_ne_iff.mp hmsg
        rcases h with h | h
        · rw [hx] at h
          exact absurd h (by simp)
        · rw [hm] at h
          simp at h

theorem handle_psubscribe_reply_drop (s : SubState) (x y z w : Reply)
    (h : idxIsStr [x, y, z, w] 0 "pmessage" = false) :
    handle_psubscribe_reply s [x, y, z, w] = (s, []) := by
  simp only [idxIsStr, idx, Bool.and_eq_false_iff] at h
  simp only [handle_psubscribe_reply, idx]
  split
  · rfl
  · split
    · rfl
    · split
      · rfl
      · rename_i hstrs hmsg
        exfalso
        have hx : x.is_string = true := by
          by_contra hx
          rw [Bool.not_eq_true] at hx
          exact hstrs (by simp [hx])
        have hm : x.as_string = "pmessage" := not_ne_iff.mp hmsg
        rcases h with h | h
        · rw [hx] at h
          exact absurd h (by simp)
        · rw [hm] at h
          simp at h

/-- C2: the receive handler classifies every parsed reply by the six
ordered rules: a non-array reply is treated as OOB (AUTH one-shot first,
else SETNAME, else discarded); a 3-element array with integer third element
is an ack routed to the channel table (title `"subscribe"`) or pattern
table (title `"psubscribe"`), invoking the ack handler with the count; a
3-element array with string third element and title `"message"` invokes the
channel's message handler; a 4-element array with title `"pmessage"`
invokes the pattern's message handler with the concrete channel and
payload; a 2-element array with first element the string `"pong"` is
dispatched as a pong; every other reply is silently discarded with no
handler invoked. -/
theorem c2_receive_classification (s : SubState) :
    (∀ r a, r.is_array = false → s.m_auth_reply_callback = some a →
      connection_receive_handler s r =
        ({s with m_auth_reply_callback := none}, [.replyCb a r])) ∧
    (∀ r b, r.is_array = false → s.m_auth_reply_callback = none →
      s.m_client_setname_reply_callback = some b →
      connection_receive_handler s r =
        ({s with m_client_setname_reply_callback := none},
         [.replyCb b r])) ∧
    (∀ r, r.is_array = false → s.m_auth_reply_callback = none →
      s.m_client_setname_reply_callback = none →
      connection_receive_handler s r = (s, [])) ∧
    (∀ ch n h a, mapFind ch s.m_subscribed_channels = some h →
      h.acknowledgement_callback = some a →
      connection_receive_handler s
        (.arr [.str "subscribe", .str ch, .int n]) = (s, [.ackCb a n])) ∧
    (∀ p n h a, mapFind p s.m_psubscribed_channels = some h →
      h.acknowledgement_callback = some a →
      connection_receive_handler s
        (.arr [.str "psubscribe", .str p, .int n]) = (s, [.ackCb a n])) ∧
    (∀ ch m h, mapFind ch s.m_subscribed_channels = some h →
      connection_receive_handler s
        (.arr [.str "message", .str ch, .str m]) =
        (s, [.msgCb h.subscribe_callback ch m])) ∧
    (∀ p ch m h, mapFind p s.m_psubscribed_channels = some h →
      connection_receive_handler s
        (.arr [.str "pmessage", .str p, .str ch, .str m]) =
        (s, [.msgCb h.subscribe_callback ch m])) ∧
    (∀ x, connection_receive_handler s (.arr [.str "pong", x]) =
      handle_ping_reply s (.arr [.str "pong", x])) ∧
    (∀ a, matchesDispatchShape a = false →
      connection_receive_handler s (.arr a) = (s, [])) := by
  refine ⟨?_, ?_, ?_, ?_, ?_, ?_, ?_, ?_, ?_⟩
  · intro r a hr ha
    simp [connection_receive_handler, hr, ha]
  · intro r b hr ha hb
    simp [connection_receive_handler, hr, ha, hb]
  · intro r hr ha hb
    simp [connection_receive_handler, hr, ha, hb]
  · intro ch n h a hf ha
    simp [connection_receive_handler, handle_acknowledgement_reply,
      call_acknowledgement_callback, idx, Reply.is_array, Reply.is_string,
      Reply.is_integer, Reply.as_string, Reply.as_integer, Reply.as_array,
      hf, ha]
  · intro p n h a hf ha
    simp [connection_receive_handler, handle_acknowledgement_reply,
      call_acknowledgement_callback, idx, Reply.is_array, Reply.is_string,
      Reply.is_integer, Reply.as_string, Reply.as_integer, Reply.as_array,
      hf, ha]
  · intro ch m h hf
    simp [connection_receive_handler, handle_subscribe_reply, idx,
      Reply.is_array, Reply.is_string, Reply.is_integer, Reply.as_string,
      Reply.as_array, hf]
  · intro p ch m h hf
    simp [connection_receive_handler, handle_psubscribe_reply, idx,
      Reply.is_array, Reply.is_string, Reply.is_integer, Reply.as_string,
      Reply.as_array, hf]
  · intro x
    simp [connection_receive_handler, idx, Reply.is_array, Reply.is_string,
      Reply.as_string, Reply.as_array]
  · intro a hshape
    match a with
    | [] =>
      simp [connection_receive_handler, Reply.is_array, Reply.as_array]
    | [x] =>
      simp [connection_receive_handler, Reply.is_array, Reply.as_array]
    | [x, y] =>
      simp only [matchesDispatchShape, idxIsStr, idx] at hshape
      simp at hshape
      by_cases hx : x.is_string = true
      · simp [connection_receive_handler, Reply.is_array, Reply.as_array,
          idx, hx, hshape hx]
      · rw [Bool.not_eq_true] at hx
        simp [connection_receive_handler, Reply.is_array, Reply.as_array,
          idx, hx]
    | [x, y, z] =>
      simp only [matchesDispatchShape, idxIsStr, idx] at hshape
      simp at hshape
      have hint : z.is_integer = false := hshape.1
      by_cases hstr : z.is_string = true
      · have hm : idxIsStr [x, y, z] 0 "message" = false := by
          by_cases hx : x.is_string = true
          · simp [idxIsStr, idx, hx, hshape.2 hstr hx]
          · rw [Bool.not_eq_true] at hx
            simp [idxIsStr, idx, hx]
        have hdrop := handle_subscribe_reply_drop s x y z hm
        simp [connection_receive_handler, Reply.is_array, Reply.as_array,
          idx, hint, hstr, hdrop]
      · rw [Bool.not_eq_true] at hstr
        simp [connection_receive_handler, Reply.is_array, Reply.as_array,
          idx, hint, hstr]
    | [x, y, z, w] =>
      simp only [matchesDispatchShape, idxIsStr, idx] at hshape
      simp at hshape
      have hm : idxIsStr [x, y, z, w] 0 "pmessage" = false := by
        by_cases hx : x.is_string = true
        · simp [idxIsStr, idx, hx, hshape hx]
        · rw [Bool.not_eq_true] at hx
          simp [idxIsStr, idx, hx]
      have hdrop := handle_psubscribe_reply_drop s x y z w hm
      simp [connection_receive_handler, Reply.is_array, Reply.as_array,
        idx, hdrop]
    | x :: y :: z :: w :: v :: rest =>
      simp [connection_receive_handler, Reply.is_array, Reply.as_array]

/-- Witness for C2 on `sampleState`: a subscribe ack for "news" invokes ack
handler 2 with count 1, and a message on "news" invokes message handler 1. -/
theorem c2_receive_classification_witness :
    connection_receive_handler sampleState
      (.arr [.str "subscribe", .str "news", .int 1]) =
      (sampleState, [.ackCb 2 1]) ∧
    connection_receive_handler sampleState
      (.arr [.str "message", .str "news", .str "hello"]) =
      (sampleState, [.msgCb 1 "news" "hello"]) :=
  ⟨(c2_receive_classification sampleState).2.2.2.1 "news" 1 ⟨1, some 2⟩ 2
      rfl rfl,
   (c2_receive_classification sampleState).2.2.2.2.2.1 "news" "hello"
      ⟨1, some 2⟩ rfl⟩

theorem runPings_state (ps : List (String × Nat)) (s : SubState) :
    (runPings ps s).1 =
      {s with m_ping_callbacks :=
        s.m_ping_callbacks ++ ps.map (fun p => some p.2)} := by
  induction ps generalizing s with
  | nil => simp [runPings]
  | cons p ps ih =>
    simp [runPings, ping, ih]

theorem deliverPongs_events (ps : List (String × Nat)) (s : SubState)
    (h : s.m_ping_callbacks = ps.map (fun p => some p.2)) :
    deliverPongs (ps.map Prod.fst) s =
      ({s with m_ping_callbacks := []},
       ps.map (fun p => Event.replyCb p.2 (pongReply p.1))) := by
  induction ps generalizing s with
  | nil =>
    simp only [List.map_nil] at h
    simp only [List.map_nil, deliverPongs]
    rw [← h]
  | cons p ps ih =>
    simp only [List.map_cons] at h
    have hstep : connection_receive_handler s (pongReply p.1) =
        ({s with m_ping_callbacks := ps.map (fun p => some p.2)},
         [Event.replyCb p.2 (pongReply p.1)]) := by
      simp [pongReply, connection_receive_handler, handle_ping_reply, idx,
        Reply.is_array, Reply.is_string, Reply.as_string, Reply.as_array, h]
    simp only [List.map_cons, deliverPongs, hstep]
    rw [ih {s with m_ping_callbacks := ps.map (fun p => some p.2)} rfl]
    simp

/-- C7: each `ping` atomically pushes its callback onto the FIFO together
with buffering the `PING` command; and for pings `(m_1, cb_1) ... (m_n,
cb_n)` issued on a connection with an empty FIFO whose pongs arrive in
request order, the i-th pong dispatched invokes exactly `cb_i`, with the
full reply `["pong", m_i]` (second element `m_i`), leaving the FIFO
empty. -/
theorem c7_ping_fifo_order (ps : List (String × Nat)) (s : SubState)
    (h : s.m_ping_callbacks = []) :
    (∀ m cb st, ping m cb st =
      ({st with m_ping_callbacks := st.m_ping_callbacks ++ [cb]},
       [.send (if m = "" then ["PING"] else ["PING", m])])) ∧
    deliverPongs (ps.map Prod.fst) (runPings ps s).1 =
      ({(runPings ps s).1 with m_ping_callbacks := []},
       ps.map (fun p => Event.replyCb p.2 (pongReply p.1))) := by
  refine ⟨fun m cb st => rfl, ?_⟩
  apply deliverPongs_events
  rw [runPings_state, h]
  rfl

/-- Witness for C7: three pings `("a", 11)`, `("", 12)`, `("c", 13)` from a
fresh subscriber; the three pongs invoke 11, 12, 13 in order with the
matching echoed message. -/
theorem c7_ping_fifo_order_witness :
    deliverPongs ["a", "", "c"]
        (runPings [("a", 11), ("", 12), ("c", 13)] subscriberInit).1 =
      ({(runPings [("a", 11), ("", 12), ("c", 13)] subscriberInit).1 with
          m_ping_callbacks := []},
       [.replyCb 11 (pongReply "a"), .replyCb 12 (pongReply ""),
        .replyCb 13 (pongReply "c")]) :=
  (c7_ping_fifo_order [("a", 11), ("", 12), ("c", 13)] subscriberInit
    rfl).2

theorem replyCbEvents_append (a b : List Event) :
    replyCbEvents (a ++ b) = replyCbEvents a ++ replyCbEvents b := by
  simp [replyCbEvents]

theorem replyCbEvents_notify (s : SubState) (cs : ConnectState) :
    replyCbEvents (notify s cs) = [] := by
  unfold notify
  cases s.m_connect_callback <;> rfl

theorem replyCbEvents_nil : replyCbEvents [] = [] := rfl

theorem replyCbEvents_send (ts : List String) (es : List Event) :
    replyCbEvents (.send ts :: es) = replyCbEvents es := rfl

theorem replyCbEvents_commit (es : List Event) :
    replyCbEvents (.commitCmd :: es) = replyCbEvents es := rfl

theorem replyCbEvents_attempt (h : String) (p : Nat) (es : List Event) :
    replyCbEvents (.connectAttempt h p :: es) = replyCbEvents es := rfl

theorem replyCbEvents_connectEvt (c : Nat) (h : String) (p : Nat)
    (cs : ConnectState) (es : List Event) :
    replyCbEvents (.connectEvt c h p cs :: es) = replyCbEvents es := rfl

theorem reSub_fold_ping (l : ChannelMap) (acc : SubState × List Event) :
    ((l.foldl reSubStep acc).1.m_ping_callbacks =
      acc.1.m_ping_callbacks) ∧
    replyCbEvents (l.foldl reSubStep acc).2 = replyCbEvents acc.2 := by
  induction l generalizing acc with
  | nil => exact ⟨rfl, rfl⟩
  | cons c t ih =>
    have step := ih (reSubStep acc c)
    refine ⟨step.1.trans rfl, step.2.trans ?_⟩
    simp [reSubStep, unprotected_subscribe, replyCbEvents_append,
      replyCbEvents, isReplyCb]

theorem rePsub_fold_ping (l : ChannelMap) (acc : SubState × List Event) :
    ((l.foldl rePsubStep acc).1.m_ping_callbacks =
      acc.1.m_ping_callbacks) ∧
    replyCbEvents (l.foldl rePsubStep acc).2 = replyCbEvents acc.2 := by
  induction l generalizing acc with
  | nil => exact ⟨rfl, rfl⟩
  | cons c t ih =>
    have step := ih (rePsubStep acc c)
    refine ⟨step.1.trans rfl, step.2.trans ?_⟩
    simp [rePsubStep, unprotected_psubscribe, replyCbEvents_append,
      replyCbEvents, isReplyCb]

theorem re_subscribe_ping (s : SubState) :
    (re_subscribe s).1.m_ping_callbacks = s.m_ping_callbacks ∧
    replyCbEvents (re_subscribe s).2 = [] := by
  unfold re_subscribe
  have h1 := reSub_fold_ping s.m_subscribed_channels
    ({s with m_subscribed_channels := []}, [])
  have h2 := rePsub_fold_ping
    ((s.m_subscribed_channels.foldl reSubStep
        ({s with m_subscribed_channels := []}, [])).1.m_psubscribed_channels)
    ({(s.m_subscribed_channels.foldl reSubStep
        ({s with m_subscribed_channels := []}, [])).1 with
        m_psubscribed_channels := []},
     (s.m_subscribed_channels.foldl reSubStep
        ({s with m_subscribed_channels := []}, [])).2)
  exact ⟨h2.1.trans h1.1, h2.2.trans h1.2⟩

theorem re_subscribe_ping_state (s : SubState) :
    (re_subscribe s).1.m_ping_callbacks = s.m_ping_callbacks :=
  (re_subscribe_ping s).1

theorem re_subscribe_ping_events (s : SubState) :
    replyCbEvents (re_subscribe s).2 = [] :=
  (re_subscribe_ping s).2

theorem reconnect_phase_ping (ok : Bool) (s : SubState) :
    (reconnect_connect_phase ok s).1.m_ping_callbacks =
      s.m_ping_callbacks ∧
    replyCbEvents (reconnect_connect_phase ok s).2 = [] := by
  unfold reconnect_connect_phase connect re_auth re_client_setname auth
    client_setname commit
  cases ok <;>
    by_cases hp : s.m_password = "" <;>
      by_cases hn : s.m_client_name = "" <;>
        simp [hp, hn, replyCbEvents_append, replyCbEvents_notify,
          replyCbEvents_nil, replyCbEvents_send, replyCbEvents_commit,
          replyCbEvents_attempt, replyCbEvents_connectEvt,
          re_subscribe_ping_state, re_subscribe_ping_events]

theorem reconnect_ping (lookup : String → Option (String × Nat))
    (ok : Bool) (s : SubState) :
    (reconnect lookup ok s).1.m_ping_callbacks = s.m_ping_callbacks ∧
    replyCbEvents (reconnect lookup ok s).2 = [] := by
  unfold reconnect
  dsimp only
  split
  · exact ⟨(reconnect_phase_ping ok _).1, (reconnect_phase_ping ok _).2⟩
  · split
    · exact ⟨rfl, replyCbEvents_notify _ _⟩
    · exact ⟨(reconnect_phase_ping ok _).1, (reconnect_phase_ping ok _).2⟩

theorem replyCbEvents_sleep (s : SubState) :
    replyCbEvents (sleep_before_next_reconnect_attempt s) = [] := by
  unfold sleep_before_next_reconnect_attempt
  by_cases h : s.m_reconnect_interval_ms = 0 <;>
    simp [h, replyCbEvents_notify, replyCbEvents_nil]

theorem reconnect_loop_ping (env : ReconnectEnv) (fuel : Nat) :
    ∀ i (s : SubState),
    (reconnect_loop env i fuel s).1.m_ping_callbacks =
      s.m_ping_callbacks ∧
    replyCbEvents (reconnect_loop env i fuel s).2 = [] := by
  induction fuel with
  | zero => exact fun i s => ⟨rfl, rfl⟩
  | succ n ih =>
    intro i s
    unfold reconnect_loop
    dsimp only
    split <;> split <;>
      first
      | exact ⟨rfl, rfl⟩
      | · refine ⟨(ih _ _).1.trans (reconnect_ping _ _ _).1, ?_⟩
          rw [replyCbEvents_append, replyCbEvents_append, (ih _ _).2,
            (reconnect_ping _ _ _).2, replyCbEvents_sleep]
          rfl

theorem reconnect_loop_ping_state (env : ReconnectEnv) (fuel i : Nat)
    (s : SubState) :
    (reconnect_loop env i fuel s).1.m_ping_callbacks =
      s.m_ping_callbacks :=
  (reconnect_loop_ping env fuel i s).1

theorem reconnect_loop_ping_events (env : ReconnectEnv) (fuel i : Nat)
    (s : SubState) :
    replyCbEvents (reconnect_loop env i fuel s).2 = [] :=
  (reconnect_loop_ping env fuel i s).2

theorem replyCbEvents_pingFail (q : List (Option Nat)) :
    replyCbEvents (pingFailEvents q) = pingFailEvents q := by
  induction q with
  | nil => rfl
  | cons c t ih =>
    cases c <;> simp [pingFailEvents, replyCbEvents, isReplyCb] at * <;>
      exact ih

theorem clear_ping_callbacks_eq (t : SubState) :
    clear_ping_callbacks t =
      ({t with m_ping_callbacks := []},
       pingFailEvents t.m_ping_callbacks) := by
  obtain ⟨f1, f2, f3, f4, f5, f6, f7, f8, f9, f10, f11, f12, f13, f14,
    f15, fping, f17, f18, f19⟩ := t
  cases fping <;> rfl

/-- C8: on every teardown of the connection — a caller `disconnect` or the
entry of the reconnection handler — each pending ping callback is invoked
exactly once with the `"network failure"` error reply (the reply-callback
invocations of the whole trace are exactly one per pending handler) and the
ping FIFO is left empty. -/
theorem c8_ping_network_failure (s : SubState) (env : ReconnectEnv)
    (fuel : Nat) (hrec : s.m_reconnecting = false) :
    disconnect s =
      ({s with connected := false, m_ping_callbacks := []},
       pingFailEvents s.m_ping_callbacks) ∧
    (connection_disconnection_handler env fuel s).1.m_ping_callbacks =
      [] ∧
    replyCbEvents (connection_disconnection_handler env fuel s).2 =
      pingFailEvents s.m_ping_callbacks := by
  refine ⟨clear_ping_callbacks_eq _, ?_, ?_⟩
  · unfold connection_disconnection_handler
    rw [if_neg (by simp [hrec])]
    dsimp only
    rw [clear_ping_callbacks_eq]
    dsimp only
    split <;> simp [clear_subscriptions, reconnect_loop_ping_state]
  · unfold connection_disconnection_handler
    rw [if_neg (by simp [hrec])]
    dsimp only
    rw [clear_ping_callbacks_eq]
    dsimp only
    split <;>
      simp [replyCbEvents_append, replyCbEvents_notify,
        reconnect_loop_ping_events, replyCbEvents_pingFail,
        replyCbEvents_nil]

/-- Witness for C8 on `sampleState` (pending ping handler 6, not
reconnecting): `disconnect` fails it with the `"network failure"` error
reply and empties the FIFO. -/
theorem c8_ping_network_failure_witness :
    disconnect sampleState =
      ({sampleState with connected := false, m_ping_callbacks := []},
       [.replyCb 6 netFailureReply]) ∧
    replyCbEvents
        (connection_disconnection_handler
          ⟨fun _ _ => none, fun _ => false, fun _ => false⟩ 1
          sampleState).2 =
      [.replyCb 6 netFailureReply] :=
  ⟨(c8_ping_network_failure sampleState
      ⟨fun _ _ => none, fun _ => false, fun _ => false⟩ 1 rfl).1,
   (c8_ping_network_failure sampleState
      ⟨fun _ _ => none, fun _ => false, fun _ => false⟩ 1 rfl).2.2⟩

/-- C4 (code defect, exhibited at the failing input): `connect("redis.example",
6379, cb, timeout_ms 5000, max_reconnects 3, interval 200, tls true)` caches
host, port, connect callback, max reconnect count, reconnect interval and
TLS flag, and notifies `start` before and `ok` after the transport
handshake — but the source never assigns `m_connect_timeout_ms`, so the
caller's 5000 ms timeout is not cached: the descriptor keeps the default 0,
which is what every later `reconnect` passes to the transport. -/
theorem c4_connect_timeout_not_cached :
    (connect "redis.example" 6379 (some 9) 5000 3 200 true true
        subscriberInit).1.m_redis_server = "redis.example" ∧
    (connect "redis.example" 6379 (some 9) 5000 3 200 true true
        subscriberInit).1.m_redis_port = 6379 ∧
    (connect "redis.example" 6379 (some 9) 5000 3 200 true true
        subscriberInit).1.m_connect_callback = some 9 ∧
    (connect "redis.example" 6379 (some 9) 5000 3 200 true true
        subscriberInit).1.m_max_reconnects = 3 ∧
    (connect "redis.example" 6379 (some 9) 5000 3 200 true true
        subscriberInit).1.m_reconnect_interval_ms = 200 ∧
    (connect "redis.example" 6379 (some 9) 5000 3 200 true true
        subscriberInit).1.m_use_encryption = true ∧
    (connect "redis.example" 6379 (some 9) 5000 3 200 true true
        subscriberInit).2.1 =
      [.connectEvt 9 "redis.example" 6379 .start,
       .connectAttempt "redis.example" 6379,
       .connectEvt 9 "redis.example" 6379 .ok] ∧
    (connect "redis.example" 6379 (some 9) 5000 3 200 true true
        subscriberInit).1.m_connect_timeout_ms = 0 ∧
    (connect "redis.example" 6379 (some 9) 5000 3 200 true true
        subscriberInit).1.m_connect_timeout_ms ≠ 5000 :=
  ⟨rfl, rfl, rfl, rfl, rfl, rfl, rfl, rfl, by decide⟩

theorem keysSorted_pairwise (m : ChannelMap) (h : keysSorted m = true) :
    List.Pairwise (fun a b : String × CallbackHolder => a.1.data < b.1.data) m := by
  induction m with
  | nil => exact List.Pairwise.nil
  | cons a t ih =>
    cases t with
    | nil => simp
    | cons b t2 =>
      rw [keysSorted] at h
      by_cases hab : a.1.data < b.1.data
      · rw [if_pos hab] at h
        have hrest := ih h
        refine List.Pairwise.cons ?_ hrest
        intro x hx
        rcases List.mem_cons.mp hx with hx | hx
        · rw [hx]
          exact hab
        · exact lt_trans hab (List.rel_of_pairwise_cons hrest hx)
      · rw [if_neg hab] at h
        exact absurd h (by simp)

theorem mapInsert_append (k : String) (v : CallbackHolder) :
    ∀ m : ChannelMap, (∀ e ∈ m, e.1.data < k.data) →
      mapInsert k v m = m ++ [(k, v)] := by
  intro m
  induction m with
  | nil => intro h; rfl
  | cons a t ih =>
    intro h
    have hk2 : a.1.data < k.data := h a (by simp)
    have h1 : ¬ k.data < a.1.data := lt_asymm hk2
    have h2 : ¬ k = a.1 := by
      intro hEq
      rw [hEq] at hk2
      exact lt_irrefl _ hk2
    obtain ⟨k2, v2⟩ := a
    simp only [mapInsert, h1, if_false, h2]
    rw [ih (fun e he => h e (by simp [he]))]
    simp

theorem reSubFold (l : ChannelMap) :
    ∀ (s : SubState) (es : List Event),
    List.Pairwise (fun a b : String × CallbackHolder => a.1.data < b.1.data)
      (s.m_subscribed_channels ++ l) →
    l.foldl reSubStep (s, es) =
      ({s with m_subscribed_channels := s.m_subscribed_channels ++ l},
       es ++ l.map (fun c => Event.send ["SUBSCRIBE", c.1])) := by
  induction l with
  | nil =>
    intro s es _
    simp
  | cons c t ih =>
    intro s es h
    have hc : ∀ e ∈ s.m_subscribed_channels, e.1.data < c.1.data := by
      intro e he
      exact (List.pairwise_append.mp h).2.2 e he c (by simp)
    have hstep : reSubStep (s, es) c =
        ({s with m_subscribed_channels :=
            s.m_subscribed_channels ++ [c]},
         es ++ [Event.send ["SUBSCRIBE", c.1]]) := by
      simp only [reSubStep, unprotected_subscribe]
      rw [mapInsert_append c.1 ⟨c.2.subscribe_callback,
        c.2.acknowledgement_callback⟩ s.m_subscribed_channels hc]
    have hpair : List.Pairwise
        (fun a b : String × CallbackHolder => a.1.data < b.1.data)
        ((s.m_subscribed_channels ++ [c]) ++ t) := by
      rw [List.append_assoc]
      simpa using h
    calc (c :: t).foldl reSubStep (s, es)
        = t.foldl reSubStep (reSubStep (s, es) c) := rfl
      _ = t.foldl reSubStep
            ({s with m_subscribed_channels :=
                s.m_subscribed_channels ++ [c]},
             es ++ [Event.send ["SUBSCRIBE", c.1]]) := by rw [hstep]
      _ = _ := by
          rw [ih _ _ hpair]
          simp

theorem rePsubFold (l : ChannelMap) :
    ∀ (s : SubState) (es : List Event),
    List.Pairwise (fun a b : String × CallbackHolder => a.1.data < b.1.data)
      (s.m_psubscribed_channels ++ l) →
    l.foldl rePsubStep (s, es) =
      ({s with m_psubscribed_channels := s.m_psubscribed_channels ++ l},
       es ++ l.map (fun c => Event.send ["PSUBSCRIBE", c.1])) := by
  induction l with
  | nil =>
    intro s es _
    simp
  | cons c t ih =>
    intro s es h
    have hc : ∀ e ∈ s.m_psubscribed_channels, e.1.data < c.1.data := by
      intro e he
      exact (List.pairwise_append.mp h).2.2 e he c (by simp)
    have hstep : rePsubStep (s, es) c =
        ({s with m_psubscribed_channels :=
            s.m_psubscribed_channels ++ [c]},
         es ++ [Event.send ["PSUBSCRIBE", c.1]]) := by
      simp only [rePsubStep, unprotected_psubscribe]
      rw [mapInsert_append c.1 ⟨c.2.subscribe_callback,
        c.2.acknowledgement_callback⟩ s.m_psubscribed_channels hc]
    have hpair : List.Pairwise
        (fun a b : String × CallbackHolder => a.1.data < b.1.data)
        ((s.m_psubscribed_channels ++ [c]) ++ t) := by
      rw [List.append_assoc]
      simpa using h
    calc (c :: t).foldl rePsubStep (s, es)
        = t.foldl rePsubStep (rePsubStep (s, es) c) := rfl
      _ = t.foldl rePsubStep
            ({s with m_psubscribed_channels :=
                s.m_psubscribed_channels ++ [c]},
             es ++ [Event.send ["PSUBSCRIBE", c.1]]) := by rw [hstep]
      _ = _ := by
          rw [ih _ _ hpair]
          simp

theorem re_subscribe_replay (t : SubState)
    (h1 : List.Pairwise (fun a b : String × CallbackHolder => a.1.data < b.1.data)
      t.m_subscribed_channels)
    (h2 : List.Pairwise (fun a b : String × CallbackHolder => a.1.data < b.1.data)
      t.m_psubscribed_channels) :
    re_subscribe t =
      (t, t.m_subscribed_channels.map
            (fun c => Event.send ["SUBSCRIBE", c.1]) ++
          t.m_psubscribed_channels.map
            (fun c => Event.send ["PSUBSCRIBE", c.1])) := by
  unfold re_subscribe
  dsimp only
  rw [reSubFold t.m_subscribed_channels
    {t with m_subscribed_channels := []} [] (by simpa using h1)]
  dsimp only
  rw [rePsubFold t.m_psubscribed_channels
    {t with
      m_subscribed_channels := [] ++ t.m_subscribed_channels
      m_psubscribed_channels := []}
    ([] ++ t.m_subscribed_channels.map
      (fun c => Event.send ["SUBSCRIBE", c.1]))
    (by simpa using h2)]
  simp

theorem wireOf_append (a b : List Event) :
    wireOf (a ++ b) = wireOf a ++ wireOf b := by
  simp [wireOf]

theorem wireOf_notify (s : SubState) (cs : ConnectState) :
    wireOf (notify s cs) = [] := by
  unfold notify
  cases s.m_connect_callback <;> rfl

theorem wireOf_nil : wireOf [] = [] := rfl

theorem wireOf_send (ts : List String) (es : List Event) :
    wireOf (Event.send ts :: es) = WireItem.cmd ts :: wireOf es := rfl

theorem wireOf_commit (es : List Event) :
    wireOf (Event.commitCmd :: es) = WireItem.flush :: wireOf es := rfl

theorem wireOf_attempt (h : String) (p : Nat) (es : List Event) :
    wireOf (Event.connectAttempt h p :: es) = wireOf es := rfl

theorem wireOf_connectEvt (c : Nat) (h : String) (p : Nat)
    (cs : ConnectState) (es : List Event) :
    wireOf (Event.connectEvt c h p cs :: es) = wireOf es := rfl

theorem wireOf_sendMap (w : String) (l : ChannelMap) :
    wireOf (l.map (fun c => Event.send [w, c.1])) =
      (replayCmds w l).map WireItem.cmd := by
  induction l with
  | nil => rfl
  | cons c t ih =>
    simp only [List.map_cons, wireOf, List.filterMap_cons, replayCmds] at *
    rw [← ih]

theorem replayCmds_nodup (w : String) (l : ChannelMap)
    (h : List.Pairwise (fun a b : String × CallbackHolder => a.1.data < b.1.data) l) :
    (replayCmds w l).Nodup := by
  refine List.Pairwise.map _ ?_ h
  intro a b hab
  intro hEq
  simp only [List.cons.injEq, and_true] at hEq
  rw [hEq.2] at hab
  exact lt_irrefl _ hab

theorem reconnect_phase_replay (s : SubState)
    (h1 : List.Pairwise (fun a b : String × CallbackHolder => a.1.data < b.1.data)
      s.m_subscribed_channels)
    (h2 : List.Pairwise (fun a b : String × CallbackHolder => a.1.data < b.1.data)
      s.m_psubscribed_channels) :
    wireOf (reconnect_connect_phase true s).2 =
      ((if s.m_password = "" then [] else [["AUTH", s.m_password]]) ++
       (if s.m_client_name = "" then []
        else [["CLIENT", "SETNAME", s.m_client_name]]) ++
       replayCmds "SUBSCRIBE" s.m_subscribed_channels ++
       replayCmds "PSUBSCRIBE" s.m_psubscribed_channels).map WireItem.cmd ++
      [WireItem.flush] ∧
    (reconnect_connect_phase true s).1.m_subscribed_channels =
      s.m_subscribed_channels ∧
    (reconnect_connect_phase true s).1.m_psubscribed_channels =
      s.m_psubscribed_channels := by
  unfold reconnect_connect_phase connect re_auth re_client_setname auth
    client_setname commit
  dsimp only
  by_cases hp : s.m_password = "" <;>
    by_cases hn : s.m_client_name = "" <;>
    (simp [hp, hn]
     rw [re_subscribe_replay]
     all_goals
       first
       | exact h1
       | exact h2
       | simp [wireOf_append, wireOf_notify, wireOf_nil, wireOf_send,
           wireOf_commit, wireOf_attempt, wireOf_connectEvt,
           wireOf_sendMap])

/-- C1: in a reconnect-loop iteration whose transport connect succeeds (and
whose sentinel lookup, if any, succeeds), the wire activity is exactly:
`AUTH` with the cached password (only if one is cached), then
`CLIENT SETNAME` with the cached name (only if one is cached), then one
`SUBSCRIBE` per registered channel and one `PSUBSCRIBE` per registered
pattern — no duplicates — followed by the commit flush; and afterwards the
registry holds exactly the entries it held before the replay. -/
theorem c1_reconnect_replay (lookup : String → Option (String × Nat))
    (s : SubState)
    (hs1 : keysSorted s.m_subscribed_channels = true)
    (hs2 : keysSorted s.m_psubscribed_channels = true)
    (hlk : s.m_master_name = "" ∨
      ∃ hp, lookup s.m_master_name = some hp) :
    wireOf (reconnect lookup true s).2 =
      ((if s.m_password = "" then [] else [["AUTH", s.m_password]]) ++
       (if s.m_client_name = "" then []
        else [["CLIENT", "SETNAME", s.m_client_name]]) ++
       replayCmds "SUBSCRIBE" s.m_subscribed_channels ++
       replayCmds "PSUBSCRIBE" s.m_psubscribed_channels).map WireItem.cmd ++
      [WireItem.flush] ∧
    (reconnect lookup true s).1.m_subscribed_channels =
      s.m_subscribed_channels ∧
    (reconnect lookup true s).1.m_psubscribed_channels =
      s.m_psubscribed_channels ∧
    (replayCmds "SUBSCRIBE" s.m_subscribed_channels).Nodup ∧
    (replayCmds "PSUBSCRIBE" s.m_psubscribed_channels).Nodup := by
  have h1 := keysSorted_pairwise _ hs1
  have h2 := keysSorted_pairwise _ hs2
  have hnd1 := replayCmds_nodup "SUBSCRIBE" _ h1
  have hnd2 := replayCmds_nodup "PSUBSCRIBE" _ h2
  unfold reconnect
  dsimp only
  by_cases hm : s.m_master_name = ""
  · rw [if_pos hm]
    have hbase := reconnect_phase_replay
      {s with
        m_current_reconnect_attempts := s.m_current_reconnect_attempts + 1}
      h1 h2
    exact ⟨hbase.1, hbase.2.1, hbase.2.2, hnd1, hnd2⟩
  · rw [if_neg hm]
    rcases hlk with hm2 | ⟨hpp, hl⟩
    · exact absurd hm2 hm
    · rw [hl]
      dsimp only
      have hbase := reconnect_phase_replay
        {s with
          m_current_reconnect_attempts := s.m_current_reconnect_attempts + 1
          m_redis_server := hpp.1
          m_redis_port := hpp.2}
        h1 h2
      exact ⟨hbase.1, hbase.2.1, hbase.2.2, hnd1, hnd2⟩

/-- Witness for C1 on `sampleState` (password "pw", client name "svc",
channels "news" and "weather", pattern "news.*", no sentinel): the replayed
wire sequence is AUTH, CLIENT SETNAME, the two SUBSCRIBEs, the PSUBSCRIBE,
then the flush, and the registry is unchanged. -/
theorem c1_reconnect_replay_witness :
    wireOf (reconnect (fun _ => none) true sampleState).2 =
      [WireItem.cmd ["AUTH", "pw"],
       WireItem.cmd ["CLIENT", "SETNAME", "svc"],
       WireItem.cmd ["SUBSCRIBE", "news"],
       WireItem.cmd ["SUBSCRIBE", "weather"],
       WireItem.cmd ["PSUBSCRIBE", "news.*"],
       WireItem.flush] ∧
    (reconnect (fun _ => none) true sampleState).1.m_subscribed_channels =
      sampleState.m_subscribed_channels := by
  have h := c1_reconnect_replay (fun _ => none) sampleState (by decide)
    (by decide) (Or.inl rfl)
  refine ⟨?_, h.2.1⟩
  rw [h.1]
  rfl

end CppRedis
